import Mathlib

/-!
Shallow embedding of three plaso parser plugins and verification of the
specification claims about them:

* `plaso/parsers/zsh_extended_history.py` — the zsh extended-history parser,
* `plaso/parsers/text_plugins/vsftpd.py` — the vsftpd log text plugin,
* `plaso/parsers/sqlite_plugins/android_native_downloads.py` — the Android
  native downloads SQLite plugin.

Pure functions of the source are translated directly; framework pieces that
are not part of the repository slice (the pyparsing engine semantics, the
dfdatetime constructors, the scanner driver and the SQLite schema check) are
modelled from the specification where noted.
-/

/-! ## Character and string helpers (pyparsing token semantics) -/

/-- Default whitespace characters skipped by the pyparsing library between
tokens: space, newline and tab. -/
def isPyparsingWs (c : Char) : Bool :=
  c == ' ' || c == '\n' || c == '\t'

/-- Skip the default pyparsing whitespace before a token. -/
def skipWs (s : List Char) : List Char :=
  s.dropWhile isPyparsingWs

/-- Whitespace class of the Python regular-expression escape for whitespace. -/
def isPythonRegexWs (c : Char) : Bool :=
  c == ' ' || c == '\t' || c == '\n' || c == '\r' || c == '\x0b' || c == '\x0c'

/-- Take a maximal non-empty run of characters satisfying `p`; fail when the
first character does not satisfy `p`.  This is the semantics of a pyparsing
Word with no length bound (minimum one character). -/
def takeRun1 (p : Char → Bool) (s : List Char) : Option (List Char × List Char) :=
  match s.span p with
  | ([], _) => none
  | (pre, post) => some (pre, post)

/-- Word over character class `p` of exactly `n` characters (pyparsing Word
with an exact length): the next `n` characters must all satisfy `p`. -/
def wordExact (p : Char → Bool) (n : Nat) (s : List Char) : Option (List Char × List Char) :=
  let pre := s.take n
  if pre.length == n && pre.all p then some (pre, s.drop n) else none

/-- Word over character class `p` of at most `n` and at least one character
(pyparsing Word with a maximum length): a greedy run truncated at `n`. -/
def wordMax (p : Char → Bool) (n : Nat) (s : List Char) : Option (List Char × List Char) :=
  let pre := (s.take n).takeWhile p
  if pre.isEmpty then none else some (pre, s.drop pre.length)

/-- Numeric value of a run of decimal digits, as produced by the
PyParseIntCast parse action (int conversion). -/
def digitsToNat (ds : List Char) : Nat :=
  ds.foldl (fun acc c => acc * 10 + (c.toNat - '0'.toNat)) 0

/-- Containment of `needle` as a contiguous sublist of `hay` (the Python
substring membership test). -/
def subList (needle hay : List Char) : Bool :=
  match hay with
  | [] => needle.isEmpty
  | _ :: t => needle.isPrefixOf hay || subList needle t

/-- Python substring containment on strings. -/
def strContains (hay needle : String) : Bool :=
  subList needle.data hay.data

/-- First line of a text buffer, without its line terminator. -/
def firstLine (s : String) : String :=
  String.mk (s.data.takeWhile (fun c => c ≠ '\n'))

/-- Lowercasing of a string (the Python lower method on the ASCII month
names used here). -/
def strLower (s : String) : String :=
  String.mk (s.data.map Char.toLower)

/-! ## dfdatetime value models

The dfdatetime library is outside the repository slice; its value classes are
modelled as plain records and its broken-down-tuple validation is modelled
from the specification. -/

/-- Model of dfdatetime PosixTime: an epoch-seconds instant. -/
structure PosixTime where
  timestamp : Int
deriving DecidableEq, Repr

/-- A scalar value found in a SQLite column. -/
inductive SqlValue where
  | null : SqlValue
  | int : Int → SqlValue
  | text : String → SqlValue
deriving DecidableEq, Repr

/-- Model of dfdatetime JavaTime: a Java-epoch (milliseconds since 1970)
instant storing the raw column value unchanged. -/
structure JavaTime where
  timestamp : SqlValue
deriving DecidableEq, Repr

/-- Model of dfdatetime TimeElements: a broken-down date and time value with
the locality flag. -/
structure TimeElementsValue where
  year : Nat
  month : Nat
  dayOfMonth : Nat
  hours : Nat
  minutes : Nat
  seconds : Nat
  is_local_time : Bool
deriving DecidableEq, Repr

/-- Gregorian leap-year rule. -/
def isLeapYear (y : Nat) : Bool :=
  (y % 4 == 0 && y % 100 != 0) || y % 400 == 0

/-- Number of days in a month of a given year. -/
def daysInMonth (y m : Nat) : Nat :=
  if m == 2 then (if isLeapYear y then 29 else 28)
  else if m == 4 || m == 6 || m == 9 || m == 11 then 30
  else 31

/-- Modelled from the spec: the dfdatetime TimeElements constructor (not in
the repository slice) validates a broken-down tuple field by field and fails
when the month, day, hour, minute or second is out of range, with no silent
clamping. -/
def timeElementsValid (y m d hh mm ss : Nat) : Bool :=
  1 ≤ m && m ≤ 12 && 1 ≤ d && d ≤ daysInMonth y m && hh ≤ 23 && mm ≤ 59 && ss ≤ 59

/-! ## Zsh extended-history parser (`plaso/parsers/zsh_extended_history.py`) -/

/-- Match of a maximal run of decimal digits followed by a given literal
character, returning the remainder after the literal.  Used for the
digit-plus-literal segments of the verification regular expression. -/
def digitsThenChar (c : Char) (s : List Char) : Option (List Char) :=
  match takeRun1 Char.isDigit s with
  | some (_, c2 :: rest) => if c2 == c then some rest else none
  | _ => none

/-- Anchored match of the verification regular expression of the zsh parser:
a colon, one whitespace character, one or more digits, a colon, one or more
digits and a semicolon, at the start of the buffered text. -/
def zshVerificationMatch (s : List Char) : Bool :=
  match s with
  | ':' :: c :: rest =>
    isPythonRegexWs c &&
      (match digitsThenChar ':' rest with
       | some rest2 => (digitsThenChar ';' rest2).isSome
       | none => false)
  | _ => false

/-- CheckRequiredFormat of the zsh extended-history parser: true exactly when
the verification regular expression matches the buffered lines of the text
reader. -/
def zshCheckRequiredFormat (lines : String) : Bool :=
  zshVerificationMatch lines.data

/-- Captures of one successful application of the zsh line grammar. -/
structure ZshStructure where
  timestamp : Nat
  elapsed_seconds : Nat
  command : String
deriving DecidableEq, Repr

/-- Lookahead boundary of the command capture: end of input, a sole trailing
newline, or a newline followed by the start of the next record (colon,
whitespace, digits, colon, digits, semicolon). -/
def zshCommandBoundary (s : List Char) : Bool :=
  s.isEmpty || s == ['\n'] ||
    (match s with
     | '\n' :: ':' :: c :: rest =>
       isPythonRegexWs c &&
         (match digitsThenChar ':' rest with
          | some rest2 => (digitsThenChar ';' rest2).isSome
          | none => false)
     | _ => false)

/-- Lazy extension of the command capture up to the first position whose
remainder satisfies the lookahead boundary. -/
def zshTakeCommandAux : List Char → List Char → Option (List Char × List Char)
  | acc, [] => if zshCommandBoundary [] then some (acc, []) else none
  | acc, c :: t =>
    if zshCommandBoundary (c :: t) then some (acc, c :: t)
    else zshTakeCommandAux (acc ++ [c]) t

/-- The command capture of the zsh grammar: at least one character, extended
lazily until the lookahead boundary holds. -/
def zshTakeCommand : List Char → Option (List Char × List Char)
  | [] => none
  | c :: t => zshTakeCommandAux [c] t

/-- LineEnd as used after the command capture: skip spaces and tabs, then
accept end of input or a newline. -/
def lineEndMatches (s : List Char) : Bool :=
  match s.dropWhile (fun c => c == ' ' || c == '\t') with
  | [] => true
  | c :: _ => c == '\n'

/-- Application of the zsh line grammar to one unit: colon, integer
timestamp, colon, integer elapsed seconds, semicolon, command, line end,
with pyparsing whitespace skipping between tokens. -/
def parseZshLine (line : String) : Option ZshStructure :=
  match skipWs line.data with
  | ':' :: s1 =>
    match takeRun1 Char.isDigit (skipWs s1) with
    | none => none
    | some (ds1, s2) =>
      match skipWs s2 with
      | ':' :: s3 =>
        match takeRun1 Char.isDigit (skipWs s3) with
        | none => none
        | some (ds2, s4) =>
          match skipWs s4 with
          | ';' :: s5 =>
            match zshTakeCommand (skipWs s5) with
            | none => none
            | some (cmd, s6) =>
              if lineEndMatches s6 then
                some ⟨digitsToNat ds1, digitsToNat ds2, String.mk cmd⟩
              else none
          | _ => none
      | _ => none
  | _ => none

/-- Event data produced by the zsh extended-history parser. -/
structure ZshHistoryEventData where
  command : Option String := none
  elapsed_seconds : Option Nat := none
  last_written_time : Option PosixTime := none
deriving DecidableEq, Repr

/-- The supported structure keys of the zsh parser. -/
def zshSupportedKeys : List String := ["command"]

/-- ParseRecord of the zsh parser: fails on an unknown structure key,
otherwise copies the command and elapsed seconds and normalizes the
timestamp capture as a POSIX epoch-seconds instant. -/
def zshParseRecord (key : String) (st : ZshStructure) :
    Except String ZshHistoryEventData :=
  if zshSupportedKeys.contains key then
    Except.ok
      { command := some st.command
        elapsed_seconds := some st.elapsed_seconds
        last_written_time := some ⟨(st.timestamp : Int)⟩ }
  else
    Except.error ("Unable to parse record, unknown structure: " ++ key)

/-- Modelled from the spec: the multi-line scanner driver of the text parser
framework is not in the repository slice; per the specification a unit whose
grammar application fails yields exactly one Warning and no EventData, and
the scan resumes with the next unit. -/
def scanZshUnits : List String → List ZshHistoryEventData × List String
  | [] => ([], [])
  | u :: rest =>
    let r := scanZshUnits rest
    match parseZshLine u with
    | none => (r.1, ("unable to parse log line: " ++ u) :: r.2)
    | some st =>
      match zshParseRecord "command" st with
      | Except.ok e => (e :: r.1, r.2)
      | Except.error m => (r.1, m :: r.2)

/-! ## Vsftpd log text plugin (`plaso/parsers/text_plugins/vsftpd.py`) -/

/-- The month table of the vsftpd plugin, mapping lowercase three-letter
month names to month numbers one through twelve. -/
def MONTH_DICT : List (String × Nat) :=
  [("jan", 1), ("feb", 2), ("mar", 3), ("apr", 4), ("may", 5), ("jun", 6),
   ("jul", 7), ("aug", 8), ("sep", 9), ("oct", 10), ("nov", 11), ("dec", 12)]

/-- Month lookup of the vsftpd plugin: the dictionary get with default zero
applied to the lowercased month name. -/
def monthLookup (s : String) : Nat :=
  (MONTH_DICT.lookup (strLower s)).getD 0

/-- Captures of the date-time group of the vsftpd line grammar, in source
order: day-of-week name, month name, day of month, hours, minutes, seconds,
year. -/
structure VsftpdTimeElements where
  dayOfWeek : String
  month : String
  dayOfMonth : Nat
  hours : Nat
  minutes : Nat
  seconds : Nat
  year : Nat
deriving DecidableEq, Repr

/-- ParseTimeElements of the vsftpd plugin: maps the month name through the
month table with default zero, builds a broken-down TimeElements value with
the is-local-time flag set, and raises a ParseError when the constructor
rejects the tuple. -/
def ParseTimeElements (e : VsftpdTimeElements) : Except String TimeElementsValue :=
  let month := monthLookup e.month
  if timeElementsValid e.year month e.dayOfMonth e.hours e.minutes e.seconds then
    Except.ok ⟨e.year, month, e.dayOfMonth, e.hours, e.minutes, e.seconds, true⟩
  else
    Except.error "Unable to parse time elements with error: ValueError"

/-- Captures of one successful application of the vsftpd line grammar. -/
structure VsftpdStructure where
  date_time : VsftpdTimeElements
  text : String
deriving DecidableEq, Repr

/-- Application of the date-time group of the vsftpd grammar: two
three-letter alphabetic words, a one-or-two-digit day, three two-digit
fields separated by suppressed colons and a four-digit year, with pyparsing
whitespace skipping between tokens. -/
def parseVsftpdDateTime (s : List Char) :
    Option (VsftpdTimeElements × List Char) := do
  let (dow, s) ← wordExact Char.isAlpha 3 (skipWs s)
  let (mon, s) ← wordExact Char.isAlpha 3 (skipWs s)
  let (day, s) ← wordMax Char.isDigit 2 (skipWs s)
  let (hh, s) ← wordExact Char.isDigit 2 (skipWs s)
  match skipWs s with
  | ':' :: s => do
    let (mm, s) ← wordExact Char.isDigit 2 (skipWs s)
    match skipWs s with
    | ':' :: s => do
      let (ss, s) ← wordExact Char.isDigit 2 (skipWs s)
      let (yr, s) ← wordExact Char.isDigit 4 (skipWs s)
      some (⟨String.mk dow, String.mk mon, digitsToNat day, digitsToNat hh,
             digitsToNat mm, digitsToNat ss, digitsToNat yr⟩, s)
    | _ => none
  | _ => none

/-- Application of the vsftpd log-line grammar: the date-time group followed
by the remaining text of the line (SkipTo line end). -/
def parseVsftpdLine (line : String) : Option VsftpdStructure :=
  match parseVsftpdDateTime line.data with
  | none => none
  | some (dt, s) =>
    some ⟨dt, String.mk ((skipWs s).takeWhile (fun c => c ≠ '\n'))⟩

/-- Event data produced by the vsftpd plugin. -/
structure VsftpdLogEventData where
  added_time : Option TimeElementsValue := none
  text : Option String := none
deriving DecidableEq, Repr

/-- ParseLogLine of the vsftpd plugin: normalizes the date-time captures and
builds the event data; a ParseError of the time normalization propagates. -/
def vsftpdParseLogLine (st : VsftpdStructure) : Except String VsftpdLogEventData :=
  match ParseTimeElements st.date_time with
  | Except.error e => Except.error e
  | Except.ok dt => Except.ok { added_time := some dt, text := some st.text }

/-- The supported structure keys of the vsftpd plugin. -/
def vsftpdSupportedKeys : List String := ["logline"]

/-- ParseRecord of the vsftpd plugin: fails on an unknown structure key;
otherwise a ParseError of the log-line parse is caught and converted into
one extraction warning, producing no event for that unit.  The result pairs
the produced events with the produced warnings. -/
def vsftpdParseRecord (key : String) (st : VsftpdStructure) :
    Except String (List VsftpdLogEventData × List String) :=
  if vsftpdSupportedKeys.contains key then
    match vsftpdParseLogLine st with
    | Except.ok e => Except.ok ([e], [])
    | Except.error m =>
      Except.ok ([], ["unable to parse log line with error: " ++ m])
  else
    Except.error ("Unable to parse record, unknown structure: " ++ key)

/-- CheckRequiredFormat of the vsftpd plugin over the first line of the
file, where none models a line that cannot be decoded: false on a decode
failure, false when a non-empty line lacks either required substring, false
when the line grammar rejects, false when the time elements fail to
normalize, and true otherwise. -/
def vsftpdCheckRequiredFormat (line? : Option String) : Bool :=
  match line? with
  | none => false
  | some line =>
    if decide (line ≠ "") && (!strContains line " [pid " || !strContains line ": Client ") then
      false
    else
      match parseVsftpdLine line with
      | none => false
      | some st =>
        match ParseTimeElements st.date_time with
        | Except.error _ => false
        | Except.ok _ => true

/-! ## Android native downloads SQLite plugin
(`plaso/parsers/sqlite_plugins/android_native_downloads.py`) -/

/-- A row of a SQLite result set, as a mapping from column name to value. -/
def SqlRow : Type := List (String × SqlValue)

/-- Modelled from the spec: the framework row accessor (column lookup by
name) is not in the repository slice; per the specification the row source
exposes the value of a named column, a missing value being the SQL null. -/
def GetRowValue (row : SqlRow) (name : String) : SqlValue :=
  (List.lookup name row).getD SqlValue.null

/-- GetDateTimeRowValue of the Android downloads plugin: the null column
value yields none, any other value is wrapped unchanged as a Java-epoch
milliseconds timestamp. -/
def GetDateTimeRowValue (row : SqlRow) (name : String) : Option JavaTime :=
  match GetRowValue row name with
  | SqlValue.null => none
  | v => some ⟨v⟩

/-- Event data produced by the Android native downloads plugin; every
attribute is initialized unset. -/
structure AndroidNativeDownloadsEventData where
  lastmod : Option JavaTime := none
  id : Option SqlValue := none
  uri : Option SqlValue := none
  mimetype : Option SqlValue := none
  total_bytes : Option SqlValue := none
  current_bytes : Option SqlValue := none
  status : Option SqlValue := none
  saved_to : Option SqlValue := none
  deleted : Option SqlValue := none
  notification_package : Option SqlValue := none
  title : Option SqlValue := none
  media_provider_uri : Option SqlValue := none
  error_msg : Option SqlValue := none
  is_visible_in_downloads_ui : Option SqlValue := none
  destination : Option SqlValue := none
  ui_visibility : Option SqlValue := none
  e_tag : Option SqlValue := none
  description : Option SqlValue := none
deriving DecidableEq, Repr

/-- The declared downloads query of the plugin. -/
def downloadsQuery : String :=
  "SELECT _id, uri, _data, mimetype, destination, visibility, status, lastmod, notificationpackage, total_bytes, current_bytes, etag, description, is_visible_in_downloads_ui, mediaprovider_uri, deleted, errorMsg FROM downloads"

/-- ParseDownloadsRow as written in the source: the body is a stub whose
row-copying statements are commented out, so it builds the event data with
every attribute left unset and never reads the row. -/
def ParseDownloadsRow (_query : String) (_row : SqlRow) :
    AndroidNativeDownloadsEventData :=
  {}

/-- The required columns of the downloads table declared by the plugin. -/
def requiredDownloadsColumns : List String :=
  ["_id", "uri", "_data", "mimetype", "destination", "visibility", "status",
   "lastmod", "notificationpackage", "total_bytes", "current_bytes", "etag",
   "description", "is_visible_in_downloads_ui", "mediaprovider_uri",
   "deleted", "errorMsg"]

/-- REQUIRED_STRUCTURE of the plugin: one required table, downloads, with
its required columns. -/
def REQUIRED_STRUCTURE : List (String × List String) :=
  [("downloads", requiredDownloadsColumns)]

/-- Modelled from the spec: the SQLite plugin schema check is framework code
not in the repository slice; per the specification the Detector succeeds
only if every required table exists and contains every required column,
while extra tables and columns are ignored. -/
def checkRequiredStructure (required : List (String × List String))
    (db : List (String × List String)) : Bool :=
  required.all fun t =>
    match List.lookup t.1 db with
    | none => false
    | some dbCols => t.2.all fun c => dbCols.contains c

/-- The column sets of the declared SCHEMAS of the plugin, transcribed from
its CREATE TABLE statements; the downloads table carries many columns beyond
the required ones, and extra tables are present. -/
def androidSchemasDb : List (String × List String) :=
  [("android_metadata", ["locale"]),
   ("downloads",
    ["_id", "uri", "method", "entity", "no_integrity", "hint", "otaupdate",
     "_data", "mimetype", "destination", "no_system", "visibility", "control",
     "status", "numfailed", "lastmod", "notificationpackage",
     "notificationclass", "notificationextras", "cookiedata", "useragent",
     "referer", "total_bytes", "current_bytes", "etag", "uid", "otheruid",
     "title", "description", "scanned", "is_public_api", "allow_roaming",
     "allowed_network_types", "is_visible_in_downloads_ui",
     "bypass_recommended_size_limit", "mediaprovider_uri", "deleted",
     "errorMsg", "allow_metered", "allow_write", "flags", "mediastore_uri"]),
   ("request_headers", ["id", "download_id", "header", "value"]),
   ("sqlite_sequence", ["name", "seq"])]

/-- A downloads table that has every required column except mimetype. -/
def downloadsDbMissingMimetype : List (String × List String) :=
  [("downloads",
    ["_id", "uri", "_data", "destination", "visibility", "status", "lastmod",
     "notificationpackage", "total_bytes", "current_bytes", "etag",
     "description", "is_visible_in_downloads_ui", "mediaprovider_uri",
     "deleted", "errorMsg"])]

/-- A fully populated downloads row, used to exhibit that the stubbed row
handler ignores the row contents. -/
def sampleDownloadsRow : SqlRow :=
  [("_id", SqlValue.int 1),
   ("uri", SqlValue.text "http://example.com/file.bin"),
   ("_data", SqlValue.text "/sdcard/Download/file.bin"),
   ("mimetype", SqlValue.text "application/octet-stream"),
   ("destination", SqlValue.int 0),
   ("visibility", SqlValue.int 1),
   ("status", SqlValue.int 200),
   ("lastmod", SqlValue.int 1622370000000),
   ("notificationpackage", SqlValue.text "com.android.chrome"),
   ("total_bytes", SqlValue.int 1024),
   ("current_bytes", SqlValue.int 1024),
   ("etag", SqlValue.text "abc123"),
   ("description", SqlValue.text ""),
   ("is_visible_in_downloads_ui", SqlValue.int 1),
   ("mediaprovider_uri", SqlValue.text "content://media/external/1"),
   ("deleted", SqlValue.int 0),
   ("errorMsg", SqlValue.null)]

/-! ## Detector state model -/

/-- A text source with its content and a count of consumed input. -/
structure TextSource where
  content : String
  consumed : Nat
deriving DecidableEq, Repr

/-- Modelled from the spec: the text reader and its line buffering are
framework code not in the repository slice; per the specification the
Detector must operate on a peeked, buffered copy of a bounded prefix and
must not consume state needed by the Scanner.  The vsftpd detector reads
the first line of the buffered copy. -/
def detectVsftpd (s : TextSource) : Bool × TextSource :=
  (vsftpdCheckRequiredFormat (some (firstLine s.content)), s)

/-- Modelled from the spec: the zsh detector matches its verification
regular expression against the buffered lines of the peeked copy. -/
def detectZsh (s : TextSource) : Bool × TextSource :=
  (zshCheckRequiredFormat s.content, s)

/-! ## Helper lemmas -/

/-- Lookup in an association list misses when no key equals the probe. -/
theorem lookup_eq_none_of_not_mem {β : Type} (l : List (String × β)) (a : String)
    (h : ∀ p ∈ l, p.1 ≠ a) : List.lookup a l = none := by
  induction l with
  | nil => rfl
  | cons p t ih =>
    obtain ⟨k, b⟩ := p
    have hp : k ≠ a := h (k, b) (List.mem_cons_self (k, b) t)
    have hk : (a == k) = false := beq_eq_false_iff_ne.mpr fun e => hp e.symm
    simp only [List.lookup, hk]
    exact ih fun q hq => h q (List.mem_cons_of_mem (k, b) hq)

/-! ## Claim theorems -/

/-- Claim C1: for every vsftpd date-time structure whose three-letter month
name is not one of the twelve keys of the month table, ParseTimeElements
maps the month to zero and then fails with a ParseError rather than
returning a timestamp with month zero, so the record handler produces one
warning and no event for that unit. -/
theorem vsftpd_unknown_month_fails (t : VsftpdTimeElements) (txt : String)
    (h : ∀ p ∈ MONTH_DICT, p.1 ≠ strLower t.month) :
    monthLookup t.month = 0 ∧
    ParseTimeElements t =
      Except.error "Unable to parse time elements with error: ValueError" ∧
    vsftpdParseRecord "logline" ⟨t, txt⟩ =
      Except.ok ([], ["unable to parse log line with error: " ++
        "Unable to parse time elements with error: ValueError"]) := by
  have hm : monthLookup t.month = 0 := by
    unfold monthLookup
    rw [lookup_eq_none_of_not_mem MONTH_DICT (strLower t.month) h]
    rfl
  have hv : timeElementsValid t.year 0 t.dayOfMonth t.hours t.minutes t.seconds = false := by
    simp [timeElementsValid]
  have hp : ParseTimeElements t =
      Except.error "Unable to parse time elements with error: ValueError" := by
    simp only [ParseTimeElements, hm, hv, Bool.false_eq_true, if_false]
  exact ⟨hm, hp, by simp [vsftpdParseRecord, vsftpdParseLogLine, vsftpdSupportedKeys, hp]⟩

/-- Witness for claim C1 at the concrete month name Xxx. -/
theorem vsftpd_unknown_month_fails_witness :
    monthLookup "Xxx" = 0 ∧
    ParseTimeElements ⟨"Mon", "Xxx", 6, 18, 43, 28, 2016⟩ =
      Except.error "Unable to parse time elements with error: ValueError" ∧
    vsftpdParseRecord "logline" ⟨⟨"Mon", "Xxx", 6, 18, 43, 28, 2016⟩, "FTP command"⟩ =
      Except.ok ([], ["unable to parse log line with error: " ++
        "Unable to parse time elements with error: ValueError"]) :=
  vsftpd_unknown_month_fails ⟨"Mon", "Xxx", 6, 18, 43, 28, 2016⟩ "FTP command" (by decide)

/-- Claim C2 exhibit: ParseDownloadsRow of the Android downloads plugin is a
stub that never reads the row, so on a fully populated downloads row the
emitted event data carries no attribute values at all, although the row
holds a uri and a lastmod value reachable through the row accessors. -/
theorem android_parse_downloads_row_stub :
    ParseDownloadsRow downloadsQuery sampleDownloadsRow = {} ∧
    (ParseDownloadsRow downloadsQuery sampleDownloadsRow).uri = none ∧
    (ParseDownloadsRow downloadsQuery sampleDownloadsRow).lastmod = none ∧
    GetRowValue sampleDownloadsRow "uri" = SqlValue.text "http://example.com/file.bin" ∧
    GetDateTimeRowValue sampleDownloadsRow "lastmod" = some ⟨SqlValue.int 1622370000000⟩ :=
  ⟨rfl, rfl, rfl, rfl, rfl⟩

/-- Claim C3: the zsh line grammar applied to the unit with timestamp 1673,
elapsed seconds 42 and command ls -la succeeds with exactly those captures,
and ParseRecord normalizes the timestamp as the POSIX epoch-seconds instant
1673 in the emitted event data. -/
theorem zsh_scenario_a :
    parseZshLine ":1673:42;ls -la" = some ⟨1673, 42, "ls -la"⟩ ∧
    zshParseRecord "command" ⟨1673, 42, "ls -la"⟩ =
      Except.ok { command := some "ls -la", elapsed_seconds := some 42,
                  last_written_time := some ⟨1673⟩ } :=
  ⟨by decide, rfl⟩

/-- Claim C4: a unit rejected by the zsh line grammar contributes exactly
one warning and no event data to the scan, and scanning resumes with the
following units unaffected. -/
theorem zsh_malformed_unit_one_warning (u : String) (units : List String)
    (h : parseZshLine u = none) :
    (scanZshUnits (u :: units)).1 = (scanZshUnits units).1 ∧
    (scanZshUnits (u :: units)).2 =
      ("unable to parse log line: " ++ u) :: (scanZshUnits units).2 := by
  simp [scanZshUnits, h]

/-- Witness for claim C4 at the concrete malformed unit with a non-numeric
timestamp field, followed by a well-formed unit. -/
theorem zsh_malformed_unit_one_warning_witness :
    (scanZshUnits [":abc:42;ls", ":1673:42;ls -la"]).1 =
      (scanZshUnits [":1673:42;ls -la"]).1 ∧
    (scanZshUnits [":abc:42;ls", ":1673:42;ls -la"]).2 =
      ("unable to parse log line: " ++ ":abc:42;ls") ::
        (scanZshUnits [":1673:42;ls -la"]).2 :=
  zsh_malformed_unit_one_warning ":abc:42;ls" [":1673:42;ls -la"] (by rfl)

/-- Claim C5: both format detectors are idempotent and non-consuming; each
leaves the source state unchanged and yields the same boolean when called a
second time on the state it returned. -/
theorem detectors_idempotent_nonconsuming (s : TextSource) :
    (detectVsftpd s).2 = s ∧
    (detectVsftpd (detectVsftpd s).2).1 = (detectVsftpd s).1 ∧
    (detectZsh s).2 = s ∧
    (detectZsh (detectZsh s).2).1 = (detectZsh s).1 :=
  ⟨rfl, rfl, rfl, rfl⟩

/-- Claim C6: the vsftpd detector is a total boolean check; it returns true
exactly when the first line decodes, contains both required substrings,
fully parses with the line grammar and has date-time elements that normalize
successfully, and it returns false in every other case. -/
theorem vsftpd_check_required_format_iff (line? : Option String) :
    vsftpdCheckRequiredFormat line? = true ↔
      ∃ line st ts, line? = some line ∧
        strContains line " [pid " = true ∧
        strContains line ": Client " = true ∧
        parseVsftpdLine line = some st ∧
        ParseTimeElements st.date_time = Except.ok ts := by
  cases line? with
  | none => simp [vsftpdCheckRequiredFormat]
  | some line =>
    constructor
    · intro hres
      by_cases hline : line = ""
      · subst hline
        exact absurd hres (by decide)
      · have hd : decide (line ≠ "") = true := decide_eq_true hline
        simp only [vsftpdCheckRequiredFormat] at hres
        split at hres
        · exact absurd hres (by simp)
        · rename_i hguard
          rw [hd] at hguard
          simp only [Bool.true_and, Bool.or_eq_true, Bool.not_eq_true'] at hguard
          push_neg at hguard
          split at hres
          · exact absurd hres (by simp)
          · rename_i st hst
            split at hres
            · exact absurd hres (by simp)
            · rename_i ts hts
              refine ⟨line, st, ts, rfl, ?_, ?_, hst, hts⟩
              · cases hc : strContains line " [pid " with
                | false => exact absurd hc hguard.1
                | true => rfl
              · cases hc : strContains line ": Client " with
                | false => exact absurd hc hguard.2
                | true => rfl
    · rintro ⟨l, st, ts, heq, ha, hb, hst, hts⟩
      cases heq
      simp [vsftpdCheckRequiredFormat, ha, hb, hst, hts]

/-- Claim C7: the schema check with the declared required structure accepts
a source only if its downloads table holds all seventeen required columns;
it rejects a downloads table lacking only mimetype and accepts the declared
schema catalog with its extra tables and columns. -/
theorem android_required_schema :
    (∀ db : List (String × List String),
        checkRequiredStructure REQUIRED_STRUCTURE db = true →
          ∃ cols, List.lookup "downloads" db = some cols ∧
            requiredDownloadsColumns.all (fun c => cols.contains c) = true) ∧
    checkRequiredStructure REQUIRED_STRUCTURE downloadsDbMissingMimetype = false ∧
    checkRequiredStructure REQUIRED_STRUCTURE androidSchemasDb = true := by
  refine ⟨?_, by decide, by decide⟩
  intro db h
  simp only [checkRequiredStructure, REQUIRED_STRUCTURE, List.all_cons, List.all_nil,
    Bool.and_true] at h
  cases hl : List.lookup "downloads" db with
  | none => rw [hl] at h; cases h
  | some cols => rw [hl] at h; exact ⟨cols, rfl, h⟩

/-- Witness for claim C7: the declared schema catalog passes the check and
its downloads table contains every required column. -/
theorem android_required_schema_witness :
    ∃ cols, List.lookup "downloads" androidSchemasDb = some cols ∧
      requiredDownloadsColumns.all (fun c => cols.contains c) = true :=
  android_required_schema.1 androidSchemasDb (by decide)

/-- Claim C8: the broken-down vsftpd time tuple for June 6 2016 18:43:28
maps its month name through the month table to month six and normalizes to
a local-time-flagged timestamp. -/
theorem vsftpd_scenario_d :
    monthLookup "jun" = 6 ∧
    ParseTimeElements ⟨"Mon", "jun", 6, 18, 43, 28, 2016⟩ =
      Except.ok ⟨2016, 6, 6, 18, 43, 28, true⟩ :=
  ⟨rfl, rfl⟩

/-- Claim C9: GetDateTimeRowValue of the Android downloads plugin returns
none when the named column holds the null value, and otherwise wraps the raw
integer unchanged as a Java-epoch milliseconds timestamp. -/
theorem android_get_datetime_row_value (row : SqlRow) (name : String) :
    (GetRowValue row name = SqlValue.null → GetDateTimeRowValue row name = none) ∧
    (∀ t : Int, GetRowValue row name = SqlValue.int t →
        GetDateTimeRowValue row name = some ⟨SqlValue.int t⟩) := by
  constructor
  · intro h
    simp [GetDateTimeRowValue, h]
  · intro t h
    simp [GetDateTimeRowValue, h]

/-- Witness for claim C9 at a null and at an integer lastmod column. -/
theorem android_get_datetime_row_value_witness :
    GetDateTimeRowValue [("lastmod", SqlValue.null)] "lastmod" = none ∧
    GetDateTimeRowValue [("lastmod", SqlValue.int 1622370000000)] "lastmod" =
      some ⟨SqlValue.int 1622370000000⟩ :=
  ⟨(android_get_datetime_row_value [("lastmod", SqlValue.null)] "lastmod").1 rfl,
   (android_get_datetime_row_value [("lastmod", SqlValue.int 1622370000000)]
     "lastmod").2 1622370000000 rfl⟩

/-- Claim C10: the zsh detector is strictly stricter than the line grammar;
the unit without a whitespace character after the leading colon is accepted
by the grammar yet rejected by the verification regular expression, while
the spaced variant is accepted by it. -/
theorem zsh_detector_stricter_than_grammar :
    zshCheckRequiredFormat ":1673:42;ls -la" = false ∧
    (parseZshLine ":1673:42;ls -la").isSome = true ∧
    zshCheckRequiredFormat ": 1673:42;ls -la" = true :=
  ⟨rfl, rfl, rfl⟩
